import Mathlib

/-!
Shallow embedding of the resilient stream-synchronization engine of this
repository, covering:

* `hummingbot/connector/exchange/kraken/kraken_api_order_book_data_source.py`
  (`get_snapshot`, `_inner_messages`, `listen_for_trades`,
  `listen_for_order_book_diffs`);
* `hummingbot/connector/exchange/ascend_ex/ascend_ex_api_user_stream_data_source.py`
  (`listen_for_user_stream`, `_inner_messages`).

Modelling conventions:

* Decimal numbers that the Python code handles through `float(...)` (per-level
  sequence timestamps) are embedded as exact rationals `ℚ`; the claims under
  study are pure order/maximum properties, independent of rounding.
* Network I/O is embedded as traces: a session is driven by a finite list of
  transport events (`ReadEvent`), a listener by the finite list of frames its
  read loop yields.  A trace that runs out models a still-live session.
* `ujson.loads` is external; its outcome on a frame is part of the frame datum
  (parse failure / `null` / a parsed payload).
* `convert_from_exchange_trading_pair` / `convert_to_exchange_trading_pair`
  belong to the external Symbol Translator collaborator (spec §1) and are
  embedded as the identity on the canonical pair string.
* The throttler (Admission Gate), logging and timestamp bookkeeping
  (`_last_recv_time`) do not influence any claim and are not modelled.
-/

/-- Python `max(iterable, default=d)`: the default is returned only when the
iterable is empty, otherwise the true maximum of the elements
(`kraken_api_order_book_data_source.py` lines 107 and 214-216). -/
def pyMax {α : Type} [LinearOrder α] (l : List α) (default : α) : α :=
  match l with
  | [] => default
  | x :: xs => xs.foldl max x

/-- Python `x or y` on two lists: `[]` (falsy) falls through to `y`
(used in `msg[1].get("a", []) or msg[1].get("as", []) or []`, line 212). -/
def pyOrList {α : Type} (x y : List α) : List α :=
  if x.isEmpty then y else x

/-- External Symbol Translator (spec §1), embedded as the identity. -/
def convert_from_exchange_trading_pair (pair : String) : String := pair

/-- One price level of a Kraken book payload: `[price, volume, timestamp]`.
The third field is the per-level sequence marker the code feeds to `float`. -/
structure KrakenLevel where
  price : ℚ
  volume : ℚ
  seq : ℚ
deriving DecidableEq

/-- The instrument-keyed book object inside the REST `result` field. -/
structure KrakenBookRaw where
  bids : List KrakenLevel
  asks : List KrakenLevel
deriving DecidableEq

/-- A decoded Kraken REST depth response: HTTP status, the `error` list and
the `result` object (as an association list, preserving iteration order of
`response_json["result"].values()`). -/
structure KrakenRestResponse where
  status : Nat
  error : List String
  result : List (String × KrakenBookRaw)
deriving DecidableEq

/-- The normalized snapshot dictionary built by `get_snapshot`. -/
structure SnapshotData where
  trading_pair : String
  bids : List KrakenLevel
  asks : List KrakenLevel
  latest_update : ℚ
deriving DecidableEq

/-- `KrakenAPIOrderBookDataSource.get_snapshot` (lines 78-113) on a decoded
response.  Raises (`Except.error`) when the HTTP status is not 200 or the
`error` list is non-empty; `next(iter(response_json["result"].values()))`
raises `StopIteration` when `result` holds no entry; otherwise returns the
normalized data with `latest_update = max(map(lambda x: x[2], bids + asks),
default=0.)`. -/
def get_snapshot (trading_pair : String) (resp : KrakenRestResponse) :
    Except String SnapshotData :=
  if resp.status ≠ 200 then
    .error "HTTP status is not 200."
  else if resp.error.length > 0 then
    .error "response error list is non-empty."
  else
    match resp.result with
    | [] => .error "StopIteration: result holds no instrument entry."
    | (_, raw) :: _ =>
        .ok { trading_pair := trading_pair
              bids := raw.bids
              asks := raw.asks
              latest_update := pyMax ((raw.bids ++ raw.asks).map (·.seq)) 0 }

/-- Kind tag of an outbound Kraken websocket book message. -/
inductive MsgKind where
  | snapshot
  | diff
deriving DecidableEq

/-- `msg[1]` of a Kraken websocket book frame: the optional incremental keys
`"a"`/`"b"` and absolute keys `"as"`/`"bs"`; `none` models an absent key,
`some []` a key present with an empty list. -/
structure KrakenWsPayload where
  a : Option (List KrakenLevel)
  b : Option (List KrakenLevel)
  as : Option (List KrakenLevel)
  bs : Option (List KrakenLevel)
deriving DecidableEq

/-- One outbound order-book message of `listen_for_order_book_diffs`. -/
structure KrakenBookOutMsg where
  trading_pair : String
  asks : List KrakenLevel
  bids : List KrakenLevel
  update_id : ℚ
  kind : MsgKind
deriving DecidableEq

/-- Body of `listen_for_order_book_diffs` for one parsed frame (lines
210-224): build `msg_dict` with `asks = msg[1].get("a", []) or
msg[1].get("as", []) or []` (and bids likewise), set `update_id` to
`max(map(lambda x: float(x[2]), bids + asks), default=0.)`, and classify as a
snapshot exactly when both `"as"` and `"bs"` are keys of `msg[1]`. -/
def processBookMessage (pair : String) (p : KrakenWsPayload) : KrakenBookOutMsg :=
  let asks := pyOrList (p.a.getD []) (pyOrList (p.as.getD []) [])
  let bids := pyOrList (p.b.getD []) (pyOrList (p.bs.getD []) [])
  { trading_pair := convert_from_exchange_trading_pair pair
    asks := asks
    bids := bids
    update_id := pyMax ((bids ++ asks).map (·.seq)) 0
    kind := if p.as.isSome ∧ p.bs.isSome then .snapshot else .diff }

/-- All levels carried by an outbound book message, bids first as in the
`update_id` computation. -/
def outLevels (m : KrakenBookOutMsg) : List KrakenLevel :=
  m.bids ++ m.asks

/- ## The `_inner_messages` read loop (both exchanges) -/

/-- Whether the chars of `needle` start `hay`. -/
def charsStartWith : List Char → List Char → Bool
  | _, [] => true
  | [], _ :: _ => false
  | c :: hs, n :: ns => c == n && charsStartWith hs ns

/-- Whether `needle` occurs as a contiguous run inside the char list. -/
def charsContain (needle : List Char) : List Char → Bool
  | [] => needle.isEmpty
  | c :: hs => charsStartWith (c :: hs) needle || charsContain needle hs

/-- Python `needle in hay` on strings. -/
def strContains (hay needle : String) : Bool :=
  charsContain needle.data hay.data

/-- The exact heartbeat frame Kraken sends. -/
def heartbeatFrame : String := "\x7b\"event\":\"heartbeat\"\x7d"

/-- The yield condition of the Kraken `_inner_messages` (lines 137-140): a
received frame is yielded unless it equals the heartbeat frame exactly or
contains the `systemStatus` / `subscriptionStatus` event markers. -/
def krakenYieldsFrame (msg : String) : Bool :=
  msg != heartbeatFrame &&
    !(strContains msg "\"event\":\"systemStatus\"") &&
    !(strContains msg "\"event\":\"subscriptionStatus\"")

/-- A Kraken control frame: one the read loop must discard. -/
def isKrakenControl (msg : String) : Bool :=
  !(krakenYieldsFrame msg)

/-- One transport event observed by `_inner_messages`, with frame payloads of
type `α`:

* `frame a` — `ws.recv()` returned a frame within `MESSAGE_TIMEOUT`;
* `timeoutThenPong` — `recv` timed out, the heartbeat probe (Kraken: `ping`
  + await pong, AscendEx: send of the `\x7bop: pong\x7d` frame) completed
  within `PING_TIMEOUT`;
* `timeoutThenPingTimeout` — `recv` timed out and the probe itself timed out;
* `closedByPeer` — the transport raised `ConnectionClosed`. -/
inductive ReadEvent (α : Type) where
  | frame (a : α)
  | timeoutThenPong
  | timeoutThenPingTimeout
  | closedByPeer
deriving DecidableEq

/-- How a `_inner_messages` generator returned. -/
inductive SessionEnd where
  | stalled
  | closedByPeer
deriving DecidableEq

/-- Result of running `_inner_messages` over a finite event trace: the frames
yielded downstream, how (and whether) the generator returned, and whether the
`finally: await ws.close()` has run.  `ended = none` models a trace that ran
out with the loop still alive and the socket still open. -/
structure InnerResult (α : Type) where
  yielded : List α
  ended : Option SessionEnd
  wsClosed : Bool
deriving DecidableEq

/-- The `_inner_messages` read loop (Kraken lines 130-150, AscendEx lines
106-129), parameterized by the yield filter: Kraken drops control frames
(`krakenYieldsFrame`), AscendEx yields every frame (`fun _ => true`).  On
`recv` timeout a probe is sent; a successful probe resumes the loop, a probe
timeout returns through `except asyncio.TimeoutError` and `ConnectionClosed`
returns through its handler, both running `finally: await ws.close()`. -/
def innerMessages {α : Type} (shouldYield : α → Bool) :
    List (ReadEvent α) → InnerResult α
  | [] => { yielded := [], ended := none, wsClosed := false }
  | .frame a :: es =>
      let r := innerMessages shouldYield es
      if shouldYield a then { r with yielded := a :: r.yielded } else r
  | .timeoutThenPong :: es => innerMessages shouldYield es
  | .timeoutThenPingTimeout :: _ =>
      { yielded := [], ended := some .stalled, wsClosed := true }
  | .closedByPeer :: _ =>
      { yielded := [], ended := some .closedByPeer, wsClosed := true }

/-- Kraken instantiation of the read loop. -/
def krakenInnerMessages : List (ReadEvent String) → InnerResult String :=
  innerMessages krakenYieldsFrame

/-- AscendEx instantiation of the read loop: no filtering, every frame is
yielded (line 116). -/
def ascendExInnerMessages : List (ReadEvent String) → InnerResult String :=
  innerMessages (fun _ => true)

/-- Events that make `_inner_messages` return. -/
def isTerminator {α : Type} : ReadEvent α → Bool
  | .timeoutThenPingTimeout => true
  | .closedByPeer => true
  | _ => false

/- ## The outer listener retry loops -/

/-- Outcome of one `try:` body iteration of a listener loop: either an
`asyncio.CancelledError` or some other exception reached the handlers.
(A body iteration only ends by raising: the session read loop is itself
unbounded.) -/
inductive CycleOutcome where
  | cancelled
  | errored
deriving DecidableEq

/-- Observable step of the outer loop. -/
inductive LoopStep where
  | ranCycle
  | sleptCooldown (seconds : Nat)
deriving DecidableEq

/-- Whether the outer loop has terminated. -/
inductive LoopEnd where
  | raisedCancelled
  | stillRunning
deriving DecidableEq

/-- The shared retry skeleton of `listen_for_trades` (lines 178-199),
`listen_for_order_book_diffs` (lines 202-230) and AscendEx
`listen_for_user_stream` (lines 55-104): `while True:` run a cycle;
`except asyncio.CancelledError: raise`; `except Exception:` log and
`await asyncio.sleep(30.0)`, then loop again.  Driven by the finite list of
cycle outcomes the environment produces. -/
def listen_loop : List CycleOutcome → List LoopStep × LoopEnd
  | [] => ([], .stillRunning)
  | .cancelled :: _ => ([.ranCycle], .raisedCancelled)
  | .errored :: rest =>
      let r := listen_loop rest
      (.ranCycle :: .sleptCooldown 30 :: r.1, r.2)

/- ## Listener bodies over yielded frames -/

/-- A frame yielded to the `listen_for_trades` body, by `ujson.loads` outcome:
`malformed` (loads raised, or the payload had an unexpected shape), or a trade
batch `[channelID, trades, ..., pair]` with opaque trade tokens. -/
inductive KrakenTradeFrame where
  | malformed
  | trades (pair : String) (ts : List Nat)
deriving DecidableEq

/-- Body of the `async for` of `listen_for_trades` (lines 185-193) over the
yielded frames of one session: each trade of a well-formed frame is paired
with its converted pair and enqueued via `output.put_nowait`; a parse failure
raises out of the loop (second component `true`), ending the session — no
later frame of the trace is processed. -/
def listen_for_trades_consume : List KrakenTradeFrame → List (String × Nat) × Bool
  | [] => ([], false)
  | .malformed :: _ => ([], true)
  | .trades pair ts :: fs =>
      let r := listen_for_trades_consume fs
      (ts.map (fun t => (convert_from_exchange_trading_pair pair, t)) ++ r.1, r.2)

/-- A frame yielded to the `listen_for_order_book_diffs` body. -/
inductive KrakenBookFrame where
  | malformed
  | book (pair : String) (payload : KrakenWsPayload)
deriving DecidableEq

/-- Body of the `async for` of `listen_for_order_book_diffs` (lines 209-224)
over the yielded frames of one session: each well-formed frame becomes exactly
one outbound message via `processBookMessage`; a parse failure raises out of
the loop, ending the session. -/
def listen_for_diffs_consume : List KrakenBookFrame → List KrakenBookOutMsg × Bool
  | [] => ([], false)
  | .malformed :: _ => ([], true)
  | .book pair p :: fs =>
      let r := listen_for_diffs_consume fs
      (processBookMessage pair p :: r.1, r.2)

/-- A frame yielded to the AscendEx `listen_for_user_stream` body, by
`ujson.loads` outcome: parse failure, a successful parse of JSON `null`
(Python `None`), or a successful parse of any other value (opaque token). -/
inductive AscendExFrame where
  | malformed
  | parsedNull
  | parsed (m : Nat)
deriving DecidableEq

/-- Whether a frame makes `ujson.loads` raise. -/
def isAscendExMalformed : AscendExFrame → Bool
  | .malformed => true
  | _ => false

/-- Body of the `async for` of `listen_for_user_stream` (lines 79-90) over
the yielded frames of one session: a parsed message is enqueued via
`output.put_nowait(msg)` unless `msg is None` (then `continue`); a parse
failure is logged and re-raised (`raise` at line 90), ending the session. -/
def listen_for_user_stream_consume : List AscendExFrame → List Nat × Bool
  | [] => ([], false)
  | .malformed :: _ => ([], true)
  | .parsedNull :: fs => listen_for_user_stream_consume fs
  | .parsed m :: fs =>
      let r := listen_for_user_stream_consume fs
      (m :: r.1, r.2)

/- ## Connection lifecycle of one `listen_for_trades` cycle -/

/-- How the read phase of a successfully opened and subscribed trades session
ended. -/
inductive ReadLoopExit where
  | innerStalled
  | innerClosedByPeer
  | bodyParseError
  | cancelledDuringRead
deriving DecidableEq

/-- Connection bookkeeping of one `try:` body of `listen_for_trades`. -/
structure TradesCycleResult where
  wsOpened : Bool
  wsClosed : Bool
  raisedToOuter : Bool
deriving DecidableEq

/-- One cycle of `listen_for_trades` (lines 179-193) with its connection
lifecycle: `ws = await websockets.connect(...)` is a bare assignment — not an
`async with` block — followed by `await ws.send(ws_message)` and the
`async for` over `_inner_messages(ws)`.  Only the generator's
`finally: await ws.close()` ever closes the socket: if `ws.send` raises
before the read loop starts, the generator never runs and the socket is never
closed.  Once the read loop is entered, every exit (generator return on
stall/close, generator finalization after a body exception, cancellation
propagating through the generator) runs the `finally` and closes the socket.
-/
def listen_for_trades_cycle (connectOk : Bool) (sendOk : Bool)
    (exit : ReadLoopExit) : TradesCycleResult :=
  if !connectOk then
    { wsOpened := false, wsClosed := false, raisedToOuter := true }
  else if !sendOk then
    { wsOpened := true, wsClosed := false, raisedToOuter := true }
  else
    match exit with
    | .innerStalled =>
        { wsOpened := true, wsClosed := true, raisedToOuter := false }
    | .innerClosedByPeer =>
        { wsOpened := true, wsClosed := true, raisedToOuter := false }
    | .bodyParseError =>
        { wsOpened := true, wsClosed := true, raisedToOuter := true }
    | .cancelledDuringRead =>
        { wsOpened := true, wsClosed := true, raisedToOuter := true }

/- ## Helper lemmas about `pyMax` -/

lemma foldlMax_le_self {α : Type} [LinearOrder α] :
    ∀ (ys : List α) (y : α), y ≤ ys.foldl max y
  | [], _ => le_rfl
  | z :: zs, y => le_trans (le_max_left y z) (foldlMax_le_self zs (max y z))

lemma foldlMax_le_of_mem {α : Type} [LinearOrder α] :
    ∀ (ys : List α) (y x : α), x ∈ ys → x ≤ ys.foldl max y := by
  intro ys
  induction ys with
  | nil => intro y x h; cases h
  | cons z zs ih =>
      intro y x h
      rcases List.mem_cons.mp h with rfl | hz
      · exact le_trans (le_max_right y x) (foldlMax_le_self zs (max y x))
      · exact ih (max y z) x hz

lemma foldlMax_mem_cons {α : Type} [LinearOrder α] :
    ∀ (ys : List α) (y : α), ys.foldl max y ∈ y :: ys := by
  intro ys
  induction ys with
  | nil => intro y; simp
  | cons z zs ih =>
      intro y
      have h := ih (max y z)
      rcases List.mem_cons.mp h with he | hm
      · show zs.foldl max (max y z) ∈ y :: z :: zs
        rw [he]
        rcases max_choice y z with hc | hc <;> rw [hc] <;> simp
      · show zs.foldl max (max y z) ∈ y :: z :: zs
        simp [List.mem_cons] at hm ⊢
        tauto

lemma pyMax_le {α : Type} [LinearOrder α] (l : List α) (d x : α) (hx : x ∈ l) :
    x ≤ pyMax l d := by
  cases l with
  | nil => cases hx
  | cons y ys =>
      rcases List.mem_cons.mp hx with rfl | h
      · exact foldlMax_le_self ys x
      · exact foldlMax_le_of_mem ys y x h

lemma pyMax_mem {α : Type} [LinearOrder α] (l : List α) (d : α) (h : l ≠ []) :
    pyMax l d ∈ l := by
  cases l with
  | nil => exact absurd rfl h
  | cons y ys => exact foldlMax_mem_cons ys y

lemma get_snapshot_ok_shape (tp : String) (resp : KrakenRestResponse)
    (d : SnapshotData) (h : get_snapshot tp resp = .ok d) :
    d.latest_update = pyMax ((d.bids ++ d.asks).map (·.seq)) 0 := by
  unfold get_snapshot at h
  split at h
  · exact absurd h (by simp)
  · split at h
    · exact absurd h (by simp)
    · split at h
      · exact absurd h (by simp)
      · injection h with h
        subst h
        rfl

/- ## Characterization of the read loop -/

/-- The payload a frame event contributes downstream under yield filter
`sy` (`none` for non-frame events and filtered frames). -/
def framePayloadIf {α : Type} (sy : α → Bool) : ReadEvent α → Option α
  | .frame a => if sy a then some a else none
  | _ => none

/-- How a trace ends the read loop: decided by its first terminator event. -/
def innerEndedOf {α : Type} (es : List (ReadEvent α)) : Option SessionEnd :=
  match es.find? isTerminator with
  | some .timeoutThenPingTimeout => some .stalled
  | some .closedByPeer => some .closedByPeer
  | _ => none

lemma innerMessages_spec {α : Type} (sy : α → Bool) (es : List (ReadEvent α)) :
    innerMessages sy es =
      { yielded := (es.takeWhile (fun e => !(isTerminator e))).filterMap
          (framePayloadIf sy)
        ended := innerEndedOf es
        wsClosed := (es.find? isTerminator).isSome } := by
  induction es with
  | nil => rfl
  | cons e es ih =>
      cases e with
      | frame a =>
          cases hsy : sy a <;>
            simp [innerMessages, ih, isTerminator, innerEndedOf, framePayloadIf,
              List.takeWhile_cons, List.find?_cons, hsy]
      | timeoutThenPong =>
          simp [innerMessages, ih, isTerminator, innerEndedOf,
            framePayloadIf, List.takeWhile_cons, List.find?_cons]
      | timeoutThenPingTimeout =>
          simp [innerMessages, isTerminator, innerEndedOf,
            List.takeWhile_cons, List.find?_cons]
      | closedByPeer =>
          simp [innerMessages, isTerminator, innerEndedOf,
            List.takeWhile_cons, List.find?_cons]

/- ## Claim C2 -/

/-- Claim C2, counterexample: two consecutive inactivity timeouts whose
heartbeat probes both succeed do NOT stall the session — the read loop keeps
waiting (no `SessionEnd`, socket still open), in both the Kraken and the
AscendEx read loops.  The code keeps no timeout counter: only a probe that
itself times out ends the session. -/
theorem two_inactivity_timeouts_do_not_stall :
    (krakenInnerMessages [.timeoutThenPong, .timeoutThenPong]).ended = none ∧
    (ascendExInnerMessages [.timeoutThenPong, .timeoutThenPong]).ended = none ∧
    (krakenInnerMessages [.timeoutThenPong, .timeoutThenPong]).wsClosed = false :=
  ⟨rfl, rfl, rfl⟩

/-- Claim C2 as amended: on an inactivity timeout the read loop sends a
heartbeat probe and waits up to the ping timeout; the session is declared
stalled (and the socket closed) exactly when the first terminating event of
the trace is a probe timeout — consecutive inactivity timeouts alone never
stall it; a successful probe resumes the loop unchanged.  Holds for any yield
filter, hence for both the Kraken and the AscendEx instantiation. -/
theorem session_stalls_iff_probe_times_out :
    ∀ (α : Type) (sy : α → Bool) (es : List (ReadEvent α)),
      ((innerMessages sy es).ended = some SessionEnd.stalled ↔
        es.find? isTerminator = some ReadEvent.timeoutThenPingTimeout) ∧
      innerMessages sy (ReadEvent.timeoutThenPong :: es) = innerMessages sy es ∧
      (innerMessages sy es).wsClosed = (es.find? isTerminator).isSome := by
  intro α sy es
  refine ⟨?_, rfl, ?_⟩
  · rw [innerMessages_spec]
    show innerEndedOf es = some SessionEnd.stalled ↔ _
    unfold innerEndedOf
    cases h : es.find? isTerminator with
    | none => simp
    | some e => cases e <;> simp
  · rw [innerMessages_spec]

theorem session_stalls_iff_probe_times_out_witness :
    ((innerMessages krakenYieldsFrame [ReadEvent.timeoutThenPingTimeout]).ended
        = some SessionEnd.stalled ↔
      [(ReadEvent.timeoutThenPingTimeout : ReadEvent String)].find? isTerminator
        = some ReadEvent.timeoutThenPingTimeout) ∧
    innerMessages krakenYieldsFrame
        (ReadEvent.timeoutThenPong :: [ReadEvent.timeoutThenPingTimeout]) =
      innerMessages krakenYieldsFrame [ReadEvent.timeoutThenPingTimeout] ∧
    (innerMessages krakenYieldsFrame [ReadEvent.timeoutThenPingTimeout]).wsClosed
      = ([(ReadEvent.timeoutThenPingTimeout : ReadEvent String)].find?
          isTerminator).isSome :=
  session_stalls_iff_probe_times_out String krakenYieldsFrame
    [ReadEvent.timeoutThenPingTimeout]

/- ## Claim C7 -/

/-- Claim C7: a Kraken control frame (the heartbeat frame, or a frame carrying
the `systemStatus` / `subscriptionStatus` event marker) is discarded by the
read loop: it is never yielded downstream, and inserting it anywhere into a
session trace changes nothing about the session's yield sequence, end state or
socket state — so it can neither reach the output queue nor alter any
instrument's book state. -/
theorem kraken_control_frames_are_discarded :
    ∀ (c : String), isKrakenControl c = true →
      (∀ es, c ∉ (krakenInnerMessages es).yielded) ∧
      (∀ es fs, krakenInnerMessages (es ++ ReadEvent.frame c :: fs) =
        krakenInnerMessages (es ++ fs)) := by
  intro c hc
  have hy : krakenYieldsFrame c = false := by
    simpa [isKrakenControl] using hc
  constructor
  · intro es
    unfold krakenInnerMessages
    rw [innerMessages_spec]
    intro hmem
    simp only [List.mem_filterMap] at hmem
    obtain ⟨e, _, he⟩ := hmem
    cases e with
    | frame a =>
        cases hsy : krakenYieldsFrame a <;> simp [framePayloadIf, hsy] at he
        subst he
        rw [hy] at hsy
        exact Bool.noConfusion hsy
    | timeoutThenPong => simp [framePayloadIf] at he
    | timeoutThenPingTimeout => simp [framePayloadIf] at he
    | closedByPeer => simp [framePayloadIf] at he
  · intro es fs
    unfold krakenInnerMessages
    induction es with
    | nil =>
        show innerMessages krakenYieldsFrame (ReadEvent.frame c :: fs) = _
        simp [innerMessages, hy]
    | cons e es ih =>
        cases e <;> simp [innerMessages, ih]

theorem kraken_control_frames_are_discarded_witness :
    isKrakenControl heartbeatFrame = true ∧
    heartbeatFrame ∉ (krakenInnerMessages [ReadEvent.frame heartbeatFrame]).yielded ∧
    krakenInnerMessages ([] ++ ReadEvent.frame heartbeatFrame :: []) =
      krakenInnerMessages ([] ++ []) :=
  ⟨by decide,
    (kraken_control_frames_are_discarded heartbeatFrame (by decide)).1
      [ReadEvent.frame heartbeatFrame],
    (kraken_control_frames_are_discarded heartbeatFrame (by decide)).2 [] []⟩

/- ## Claim C5 -/

/-- Claim C5: once the read loop of `listen_for_trades` is entered, every exit
path closes the socket (the generator's `finally`); but the session that opens
the connection with a bare `ws = await websockets.connect(...)` and then fails
in `await ws.send(ws_message)` — before the read loop starts — leaves the
socket open: the connection handle is leaked on that exit path, contradicting
the guaranteed-cleanup claim. -/
theorem listen_for_trades_cycle_leaks_on_send_failure :
    (listen_for_trades_cycle true false ReadLoopExit.innerStalled).wsOpened = true ∧
    (listen_for_trades_cycle true false ReadLoopExit.innerStalled).wsClosed = false ∧
    (∀ e, (listen_for_trades_cycle true true e).wsClosed = true) := by
  refine ⟨rfl, rfl, ?_⟩
  intro e
  cases e <;> rfl

/- ## Claim C4 -/

/-- Claim C4: full characterization of the shared listener retry loop.  A
cancellation signal is re-raised untouched and is the only way the loop
terminates; every other exception is absorbed — the loop runs the cycle,
sleeps the fixed 30-second cooldown, and retries, for as many errored cycles
as the environment produces. -/
theorem listen_loop_absorbs_all_but_cancellation :
    ∀ outs : List CycleOutcome,
      listen_loop outs =
        ((outs.takeWhile (fun o => o == CycleOutcome.errored)).flatMap
            (fun _ => [LoopStep.ranCycle, LoopStep.sleptCooldown 30]) ++
          (if CycleOutcome.cancelled ∈ outs then [LoopStep.ranCycle] else []),
          if CycleOutcome.cancelled ∈ outs then LoopEnd.raisedCancelled
          else LoopEnd.stillRunning) := by
  intro outs
  induction outs with
  | nil => rfl
  | cons o rest ih =>
      cases o with
      | cancelled => simp [listen_loop, List.takeWhile_cons]
      | errored =>
          by_cases hm : CycleOutcome.cancelled ∈ rest <;>
            simp [listen_loop, List.takeWhile_cons, ih, hm]

/- ## Claim C1 -/

lemma trades_consume_stops_at_malformed :
    ∀ (pre post : List KrakenTradeFrame),
      (∀ f ∈ pre, f ≠ KrakenTradeFrame.malformed) →
      listen_for_trades_consume (pre ++ KrakenTradeFrame.malformed :: post) =
        ((listen_for_trades_consume pre).1, true) := by
  intro pre
  induction pre with
  | nil => intro post _; rfl
  | cons f pre ih =>
      intro post hok
      cases f with
      | malformed => exact absurd rfl (hok _ (List.mem_cons_self _ _))
      | trades pair ts =>
          have h2 : ∀ g ∈ pre, g ≠ KrakenTradeFrame.malformed :=
            fun g hg => hok g (List.mem_cons_of_mem _ hg)
          simp [listen_for_trades_consume, ih post h2]

lemma diffs_consume_stops_at_malformed :
    ∀ (pre post : List KrakenBookFrame),
      (∀ f ∈ pre, f ≠ KrakenBookFrame.malformed) →
      listen_for_diffs_consume (pre ++ KrakenBookFrame.malformed :: post) =
        ((listen_for_diffs_consume pre).1, true) := by
  intro pre
  induction pre with
  | nil => intro post _; rfl
  | cons f pre ih =>
      intro post hok
      cases f with
      | malformed => exact absurd rfl (hok _ (List.mem_cons_self _ _))
      | book pair p =>
          have h2 : ∀ g ∈ pre, g ≠ KrakenBookFrame.malformed :=
            fun g hg => hok g (List.mem_cons_of_mem _ hg)
          simp [listen_for_diffs_consume, ih post h2]

lemma user_stream_consume_stops_at_malformed :
    ∀ (pre post : List AscendExFrame),
      (∀ f ∈ pre, f ≠ AscendExFrame.malformed) →
      listen_for_user_stream_consume (pre ++ AscendExFrame.malformed :: post) =
        ((listen_for_user_stream_consume pre).1, true) := by
  intro pre
  induction pre with
  | nil => intro post _; rfl
  | cons f pre ih =>
      intro post hok
      have h2 : ∀ g ∈ pre, g ≠ AscendExFrame.malformed :=
        fun g hg => hok g (List.mem_cons_of_mem _ hg)
      cases f with
      | malformed => exact absurd rfl (hok _ (List.mem_cons_self _ _))
      | parsedNull => simp [listen_for_user_stream_consume, ih post h2]
      | parsed m => simp [listen_for_user_stream_consume, ih post h2]

/-- Claim C1, counterexample: in the Kraken trade listener, the Kraken diff
listener and the AscendEx user-stream listener alike, a frame whose payload
fails to parse raises out of the read loop: the session ends at once (the
well-formed frame behind it is never processed, the output stays empty) and
the escaped exception reaches the outer retry loop, which sleeps the
30-second cooldown and reconnects — refuting "never closes the session and
never triggers a reconnect cycle". -/
theorem parse_failure_ends_session_counterexample :
    listen_for_trades_consume
        [KrakenTradeFrame.malformed, KrakenTradeFrame.trades "ETH-USDC" [7]] =
      ([], true) ∧
    listen_for_diffs_consume [KrakenBookFrame.malformed] = ([], true) ∧
    listen_for_user_stream_consume
        [AscendExFrame.malformed, AscendExFrame.parsed 7] = ([], true) ∧
    listen_loop [CycleOutcome.errored] =
      ([LoopStep.ranCycle, LoopStep.sleptCooldown 30], LoopEnd.stillRunning) :=
  ⟨rfl, rfl, rfl, rfl⟩

/-- Claim C1 as amended: a single-frame parse failure is logged and IS fatal
to the current streaming session in all three listeners: frames before it are
processed normally, nothing after it is read, and the raised error is
absorbed by the outer retry loop (cooldown + reconnect) rather than killing
the listener. -/
theorem parse_failure_ends_session_and_reaches_retry :
    (∀ (pre post : List KrakenTradeFrame),
      (∀ f ∈ pre, f ≠ KrakenTradeFrame.malformed) →
      listen_for_trades_consume (pre ++ KrakenTradeFrame.malformed :: post) =
        ((listen_for_trades_consume pre).1, true)) ∧
    (∀ (pre post : List KrakenBookFrame),
      (∀ f ∈ pre, f ≠ KrakenBookFrame.malformed) →
      listen_for_diffs_consume (pre ++ KrakenBookFrame.malformed :: post) =
        ((listen_for_diffs_consume pre).1, true)) ∧
    (∀ (pre post : List AscendExFrame),
      (∀ f ∈ pre, f ≠ AscendExFrame.malformed) →
      listen_for_user_stream_consume (pre ++ AscendExFrame.malformed :: post) =
        ((listen_for_user_stream_consume pre).1, true)) :=
  ⟨trades_consume_stops_at_malformed, diffs_consume_stops_at_malformed,
    user_stream_consume_stops_at_malformed⟩

theorem parse_failure_ends_session_and_reaches_retry_witness :
    listen_for_trades_consume
        ([KrakenTradeFrame.trades "ETH-USDC" [1]] ++
          KrakenTradeFrame.malformed :: [KrakenTradeFrame.trades "ETH-USDC" [2]]) =
      ((listen_for_trades_consume [KrakenTradeFrame.trades "ETH-USDC" [1]]).1,
        true) ∧
    listen_for_user_stream_consume
        ([AscendExFrame.parsed 1] ++
          AscendExFrame.malformed :: [AscendExFrame.parsed 2]) =
      ((listen_for_user_stream_consume [AscendExFrame.parsed 1]).1, true) :=
  ⟨parse_failure_ends_session_and_reaches_retry.1
      [KrakenTradeFrame.trades "ETH-USDC" [1]]
      [KrakenTradeFrame.trades "ETH-USDC" [2]] (by decide),
    parse_failure_ends_session_and_reaches_retry.2.2
      [AscendExFrame.parsed 1] [AscendExFrame.parsed 2] (by decide)⟩

/- ## Claim C9 -/

/-- The value the user-stream body would enqueue for a frame (`none` for a
parse failure and for the skipped `null`). -/
def ascendExPayload : AscendExFrame → Option Nat
  | .parsed m => some m
  | _ => none

/-- Claim C9, counterexample: the frame `"null"` parses successfully
(`ujson.loads` returns `None`), yet `if msg is None: continue` drops it — the
output queue stays empty and no error is raised, refuting "every frame that
parses successfully is forwarded verbatim to the output queue". -/
theorem null_frame_not_forwarded :
    listen_for_user_stream_consume [AscendExFrame.parsedNull] = ([], false) :=
  rfl

/-- Claim C9 as amended: every frame that parses successfully to a non-`null`
value is forwarded verbatim, in arrival order, up to the first parse failure;
a frame parsing to `null` is silently skipped; the session errors exactly
when some frame fails to parse. -/
theorem user_stream_forwards_nonnull_parsed_frames :
    ∀ fs : List AscendExFrame,
      listen_for_user_stream_consume fs =
        ((fs.takeWhile (fun f => !(isAscendExMalformed f))).filterMap
            ascendExPayload,
          fs.any isAscendExMalformed) := by
  intro fs
  induction fs with
  | nil => rfl
  | cons f fs ih =>
      cases f <;>
        simp [listen_for_user_stream_consume, ih, isAscendExMalformed,
          ascendExPayload, List.takeWhile_cons]

/- ## Claim C3 -/

/-- A successful depth response carrying no bid or ask level. -/
def emptyDepthResponse : KrakenRestResponse :=
  { status := 200
    error := []
    result := [("XXBTZUSD", { bids := [], asks := [] })] }

/-- Claim C3, counterexample: a successful fetch whose response carries no bid
or ask level gets watermark `latest_update = 0.0` — the `default=0.` of the
`max` call — not the fetch's arrival time (e.g. an arrival instant `1000`):
the code never consults the clock when computing `latest_update`. -/
theorem empty_snapshot_watermark_is_zero_not_arrival_time :
    get_snapshot "BTC-USD" emptyDepthResponse =
      Except.ok
        { trading_pair := "BTC-USD"
          bids := []
          asks := []
          latest_update := 0 } ∧
    (0 : ℚ) ≠ 1000 :=
  ⟨rfl, by norm_num⟩

/-- Claim C3 as amended: the snapshot's watermark equals the maximum of the
per-level sequence fields (third field of each level) over all bid and ask
levels of the response; when the response contains no levels at all, the
watermark is the constant `0.0` (the `max` default), not the arrival time. -/
theorem snapshot_watermark_is_level_max_or_zero :
    ∀ (tp : String) (resp : KrakenRestResponse) (d : SnapshotData),
      get_snapshot tp resp = Except.ok d →
        (∀ l ∈ d.bids ++ d.asks, l.seq ≤ d.latest_update) ∧
        (d.bids ++ d.asks ≠ [] →
          d.latest_update ∈ (d.bids ++ d.asks).map (·.seq)) ∧
        (d.bids ++ d.asks = [] → d.latest_update = 0) := by
  intro tp resp d h
  have hshape := get_snapshot_ok_shape tp resp d h
  refine ⟨?_, ?_, ?_⟩
  · intro l hl
    rw [hshape]
    exact pyMax_le _ 0 l.seq (List.mem_map_of_mem _ hl)
  · intro hne
    rw [hshape]
    refine pyMax_mem _ 0 ?_
    intro hm
    exact hne (by simpa using hm)
  · intro he
    rw [hshape, he]
    rfl

/-- A successful depth response with one bid level (marker 5) and one ask
level (marker 7). -/
def twoLevelDepthResponse : KrakenRestResponse :=
  { status := 200
    error := []
    result := [("XXBTZUSD",
      { bids := [{ price := 10, volume := 1, seq := 5 }]
        asks := [{ price := 11, volume := 1, seq := 7 }] })] }

/-- The snapshot data `get_snapshot` produces for `twoLevelDepthResponse`. -/
def twoLevelSnapshotData : SnapshotData :=
  { trading_pair := "BTC-USD"
    bids := [{ price := 10, volume := 1, seq := 5 }]
    asks := [{ price := 11, volume := 1, seq := 7 }]
    latest_update := 7 }

theorem snapshot_watermark_is_level_max_or_zero_witness :
    get_snapshot "BTC-USD" twoLevelDepthResponse =
      Except.ok twoLevelSnapshotData ∧
    twoLevelSnapshotData.latest_update ∈
      (twoLevelSnapshotData.bids ++ twoLevelSnapshotData.asks).map (·.seq) := by
  have hok : get_snapshot "BTC-USD" twoLevelDepthResponse =
      Except.ok twoLevelSnapshotData := by
    show Except.ok _ = _
    norm_num [twoLevelSnapshotData, pyMax]
  refine ⟨hok, ?_⟩
  have h := snapshot_watermark_is_level_max_or_zero "BTC-USD"
    twoLevelDepthResponse twoLevelSnapshotData hok
  refine h.2.1 ?_
  simp [twoLevelSnapshotData]

/- ## Claim C6 -/

/-- Claim C6: the `update_id` of every outbound Kraken book message equals the
maximum of the per-level markers (third field, as a number) across all bid and
ask levels carried by the message, computed over the whole multi-level update
before the single outbound message is emitted: it bounds every level's marker,
and is attained by one of them whenever the message carries any level. -/
theorem diff_update_id_is_level_max :
    ∀ (pair : String) (p : KrakenWsPayload),
      (∀ l ∈ outLevels (processBookMessage pair p),
        l.seq ≤ (processBookMessage pair p).update_id) ∧
      (outLevels (processBookMessage pair p) ≠ [] →
        (processBookMessage pair p).update_id ∈
          (outLevels (processBookMessage pair p)).map (·.seq)) := by
  intro pair p
  have hshape : (processBookMessage pair p).update_id =
      pyMax ((outLevels (processBookMessage pair p)).map (·.seq)) 0 := rfl
  constructor
  · intro l hl
    rw [hshape]
    exact pyMax_le _ 0 l.seq (List.mem_map_of_mem _ hl)
  · intro hne
    rw [hshape]
    refine pyMax_mem _ 0 ?_
    intro hm
    exact hne (by simpa using hm)

/-- A websocket book payload carrying one incremental ask (marker 3) and one
incremental bid (marker 4). -/
def twoLevelWsPayload : KrakenWsPayload :=
  { a := some [{ price := 10, volume := 2, seq := 3 }]
    b := some [{ price := 9, volume := 1, seq := 4 }]
    as := none
    bs := none }

theorem diff_update_id_is_level_max_witness :
    outLevels (processBookMessage "XBT/USDT" twoLevelWsPayload) ≠ [] ∧
    (processBookMessage "XBT/USDT" twoLevelWsPayload).update_id ∈
      (outLevels (processBookMessage "XBT/USDT" twoLevelWsPayload)).map
        (·.seq) :=
  ⟨by simp [processBookMessage, twoLevelWsPayload, outLevels, pyOrList],
    (diff_update_id_is_level_max "XBT/USDT" twoLevelWsPayload).2
      (by simp [processBookMessage, twoLevelWsPayload, outLevels, pyOrList])⟩

/- ## Claim C8 -/

/-- Claim C8, counterexample: a response with HTTP status 200 and an empty
application-level error list, whose `result` object holds no instrument
entry, still makes `get_snapshot` raise
(`next(iter(response_json["result"].values()))` raises on an empty
collection) — refuting the "if and only if". -/
theorem get_snapshot_raises_on_empty_result :
    (get_snapshot "BTC-USD" { status := 200, error := [], result := [] }).isOk
      = false :=
  rfl

/-- Claim C8 as amended: `get_snapshot` returns normalized data exactly when
the HTTP status is 200, the response's application-level error list is empty,
AND the `result` object holds at least one instrument entry; it raises in
every other case (non-200 status, non-empty error list, or empty `result`). -/
theorem get_snapshot_ok_iff :
    ∀ (tp : String) (resp : KrakenRestResponse),
      (get_snapshot tp resp).isOk = true ↔
        (resp.status = 200 ∧ resp.error = [] ∧ resp.result ≠ []) := by
  intro tp resp
  constructor
  · intro hok
    unfold get_snapshot at hok
    split at hok
    · exact absurd hok (by simp [Except.isOk, Except.toBool])
    · split at hok
      · exact absurd hok (by simp [Except.isOk, Except.toBool])
      · rename_i hs he
        split at hok
        · exact absurd hok (by simp [Except.isOk, Except.toBool])
        · rename_i k raw rest hr
          refine ⟨not_not.mp hs, ?_, ?_⟩
          · have : resp.error.length = 0 := by omega
            exact List.length_eq_zero.mp this
          · rw [hr]
            simp
  · rintro ⟨h1, h2, h3⟩
    unfold get_snapshot
    rw [if_neg (by simp [h1]), if_neg (by simp [h2])]
    cases hr : resp.result with
    | nil => exact absurd hr h3
    | cons kv rest =>
        obtain ⟨k, raw⟩ := kv
        rfl

theorem get_snapshot_ok_iff_witness :
    (get_snapshot "BTC-USD" twoLevelDepthResponse).isOk = true :=
  (get_snapshot_ok_iff "BTC-USD" twoLevelDepthResponse).mpr
    ⟨rfl, rfl, by simp [twoLevelDepthResponse]⟩

/- ## Claim C10 -/

/-- Claim C10: a Kraken websocket book message is classified (and emitted) as
a snapshot if and only if its payload carries both the absolute-ask key
`"as"` and the absolute-bid key `"bs"`; a payload carrying absolute asks only
(`"as"` present, `"a"` and `"bs"` absent) is classified as a diff and its
absolute levels become the diff's ask levels. -/
theorem ws_snapshot_iff_both_absolute_sides :
    ∀ (pair : String) (p : KrakenWsPayload),
      ((processBookMessage pair p).kind = MsgKind.snapshot ↔
        (p.as.isSome ∧ p.bs.isSome)) ∧
      (∀ ls, p.as = some ls → p.a = none → p.bs = none →
        (processBookMessage pair p).kind = MsgKind.diff ∧
        (processBookMessage pair p).asks = ls) := by
  intro pair p
  constructor
  · show (if p.as.isSome ∧ p.bs.isSome then MsgKind.snapshot else MsgKind.diff)
        = MsgKind.snapshot ↔ _
    by_cases h : p.as.isSome ∧ p.bs.isSome
    · simp [h]
    · simp [h]
  · intro ls has ha hbs
    constructor
    · show (if p.as.isSome ∧ p.bs.isSome then MsgKind.snapshot else MsgKind.diff)
          = MsgKind.diff
      rw [if_neg (by simp [hbs])]
    · show pyOrList (p.a.getD []) (pyOrList (p.as.getD []) []) = ls
      rw [ha, has]
      cases ls <;> simp [pyOrList]

/-- A payload with absolute asks only (the first `book-1000` frame of a pair
whose bid side has not been sent yet would look like this). -/
def asksOnlyWsPayload : KrakenWsPayload :=
  { a := none
    b := none
    as := some [{ price := 10, volume := 1, seq := 2 }]
    bs := none }

theorem ws_snapshot_iff_both_absolute_sides_witness :
    (processBookMessage "XBT/USDT" asksOnlyWsPayload).kind = MsgKind.diff ∧
    (processBookMessage "XBT/USDT" asksOnlyWsPayload).asks =
      [{ price := 10, volume := 1, seq := 2 }] :=
  (ws_snapshot_iff_both_absolute_sides "XBT/USDT" asksOnlyWsPayload).2
    [{ price := 10, volume := 1, seq := 2 }] rfl rfl rfl
